import Mathlib

/-!
Shallow embedding of the flow service of the gowintegration repository
(src/unnamed/part_000): flow CRUD, copy-on-write versioning and per-flow
locking. External collaborators (repository, version service, instance
service, distributed lock, paginator) are modelled from the specification;
the flow service functions themselves are translated from the source.
-/

namespace GowSpec

/-- State of a flow version: DRAFT is mutable, LOCKED is published/immutable. -/
inductive FlowVersionState
  | DRAFT
  | LOCKED
  deriving DecidableEq, Repr

/-- Trigger kinds from the shared package; TriggerType.EMPTY is the placeholder used at creation. -/
inductive TriggerType
  | EMPTY
  | WEBHOOK
  | PIECE
  deriving DecidableEq, Repr

/-- A flow trigger, as stored on a version. -/
structure Trigger where
  displayName : String
  name : String
  type : TriggerType
  valid : Bool
  deriving DecidableEq, Repr

/-- The mutable content of a flow version: display name, validity and trigger graph. -/
structure FlowVersionContent where
  displayName : String
  valid : Bool
  trigger : Trigger
  deriving DecidableEq, Repr

/-- A stored flow version row. -/
structure FlowVersion where
  id : Nat
  flowId : Nat
  content : FlowVersionContent
  state : FlowVersionState
  deriving DecidableEq, Repr

/-- Publish status of a flow instance. -/
inductive FlowInstanceStatus
  | ENABLED
  | DISABLED
  | UNPUBLISHED
  deriving DecidableEq, Repr

/-- A stored flow instance row: publish/run status per flow. -/
structure FlowInstance where
  projectId : Nat
  flowId : Nat
  status : FlowInstanceStatus
  deriving DecidableEq, Repr

/-- A stored flow record row: the persisted part of a Flow, without version/status. -/
structure FlowRecord where
  id : Nat
  projectId : Nat
  folderId : Option String
  deriving DecidableEq, Repr

/-- The composed Flow returned by reads: record fields plus version and status.
`version` and `status` are optional because the TypeScript code attaches them
via non-null assertions and conditional composition with no runtime check. -/
structure Flow where
  id : Nat
  projectId : Nat
  folderId : Option String
  version : Option FlowVersion
  status : Option FlowInstanceStatus
  deriving DecidableEq, Repr

/-- Backing store state: flow rows, version rows (append-only), instance rows,
and fresh-id counters standing for apId generation. -/
structure ServiceState where
  flows : List FlowRecord
  versions : List FlowVersion
  instances : List FlowInstance
  nextFlowId : Nat
  nextVersionId : Nat
  deriving DecidableEq, Repr

/-- Modelled from the spec: the repository findOneBy, keyed by (projectId, id). -/
def flowRepo.findOneBy (st : ServiceState) (projectId id : Nat) : Option FlowRecord :=
  st.flows.find? (fun f => f.projectId == projectId && f.id == id)

/-- Modelled from the spec: repository save, persisting a new flow row. -/
def flowRepo.save (st : ServiceState) (flow : FlowRecord) : ServiceState :=
  { st with flows := st.flows ++ [flow] }

/-- Modelled from the spec: repository update of the row with the given id. -/
def flowRepo.updateRow (st : ServiceState) (id : Nat) (row : FlowRecord) : ServiceState :=
  { st with flows := st.flows.map (fun f => if f.id == id then row else f) }

/-- Modelled from the spec: repository delete keyed by (projectId, id). -/
def flowRepo.deleteFlow (st : ServiceState) (projectId id : Nat) : ServiceState :=
  { st with flows := st.flows.filter (fun f => !(f.projectId == projectId && f.id == id)) }

/-- Modelled from the spec: the version service createVersion appends a fresh
mutable (DRAFT) version seeded from the given content. -/
def flowVersionService.createVersion (st : ServiceState) (flowId : Nat) (c : FlowVersionContent) :
    ServiceState × FlowVersion :=
  let v : FlowVersion :=
    { id := st.nextVersionId, flowId := flowId, content := c, state := FlowVersionState.DRAFT }
  ({ st with versions := st.versions ++ [v], nextVersionId := st.nextVersionId + 1 }, v)

/-- Modelled from the spec: getFlowVersion resolves the specified version, or
the latest version of the flow when none is specified. -/
def flowVersionService.getFlowVersion (st : ServiceState) (_projectId flowId : Nat)
    (versionId : Option Nat) (_includeArtifacts : Bool) : Option FlowVersion :=
  match versionId with
  | some vid => st.versions.find? (fun v => v.flowId == flowId && v.id == vid)
  | none => (st.versions.filter (fun v => v.flowId == flowId)).getLast?

/-- Modelled from the spec: applyOperation applies the requested operation to
the given version, updating its content in the store. -/
def flowVersionService.applyOperation (st : ServiceState) (version : FlowVersion)
    (op : FlowVersionContent → FlowVersionContent) : ServiceState :=
  let updated :=
    st.versions.map (fun v => if v.id == version.id then { v with content := op v.content } else v)
  { st with versions := updated }

/-- Modelled from the spec: the instance service get, keyed by (projectId, flowId). -/
def flowInstanceService.get (st : ServiceState) (projectId flowId : Nat) : Option FlowInstance :=
  st.instances.find? (fun i => i.projectId == projectId && i.flowId == flowId)

/-- Modelled from the spec: onFlowDelete performs instance-level cleanup,
removing the flow instance rows of the flow; it touches no flow rows. -/
def flowInstanceService.onFlowDelete (st : ServiceState) (projectId flowId : Nat) : ServiceState :=
  { st with instances :=
      st.instances.filter (fun i => !(i.projectId == projectId && i.flowId == flowId)) }

/-- A create-flow request: display name and optional folder. -/
structure CreateFlowRequest where
  displayName : String
  folderId : Option String
  deriving DecidableEq, Repr

/-- A flow operation request: either a folder reassignment (CHANGE_FOLDER) or
any other operation kind, represented by its effect on version content as
applied by the external version service. -/
inductive FlowOperationRequest
  | changeFolder (folderId : Option String)
  | versionOperation (op : FlowVersionContent → FlowVersionContent)

/-- Typed, coded errors raised by the service. -/
inductive ApError
  | flowNotFound (id : Nat)
  | lockTimeout (key : Nat)
  | nilVersionAccess (flowId : Nat)
  deriving DecidableEq, Repr

/-- Observable effects of a service call, in execution order. -/
inductive Event
  | acquireLockEv (key : Nat) (timeout : Nat)
  | releaseLockEv (key : Nat)
  | readFlowEv (projectId flowId : Nat)
  | updateFolderEv (flowId : Nat)
  | readVersionEv (flowId : Nat)
  | createVersionEv (flowId : Nat)
  | applyOperationEv (versionId : Nat)
  deriving DecidableEq, Repr

/-- flowService.create (src/unnamed/part_000, lines 98-130): persist the bare
record, create the initial empty-trigger version, fetch it back and return the
composed Flow. -/
def flowService.create (st : ServiceState) (projectId : Nat) (request : CreateFlowRequest) :
    ServiceState × Flow :=
  let flow : FlowRecord := { id := st.nextFlowId, projectId := projectId, folderId := request.folderId }
  let st1 := { (flowRepo.save st flow) with nextFlowId := st.nextFlowId + 1 }
  let st2 := (flowVersionService.createVersion st1 flow.id
    { displayName := request.displayName
      valid := false
      trigger :=
        { displayName := "Select Trigger", name := "trigger"
          type := TriggerType.EMPTY, valid := false } }).1
  let latestFlowVersion := flowVersionService.getFlowVersion st2 projectId flow.id none false
  (st2,
   { id := flow.id, projectId := flow.projectId, folderId := flow.folderId
     version := latestFlowVersion, status := none })

/-- flowService.getOne (src/unnamed/part_000, lines 185-200). -/
def flowService.getOne (st : ServiceState) (projectId id : Nat) (versionId : Option Nat)
    (includeArtifacts : Bool) : Option Flow :=
  match flowRepo.findOneBy st projectId id with
  | none => none
  | some flow =>
    let flowVersion := flowVersionService.getFlowVersion st projectId id versionId includeArtifacts
    let inst := flowInstanceService.get st projectId flow.id
    some
      { id := flow.id, projectId := flow.projectId, folderId := flow.folderId
        version := flowVersion
        status := some (match inst with
          | some i => i.status
          | none => FlowInstanceStatus.UNPUBLISHED) }

/-- flowService.getOneOrThrow (src/unnamed/part_000, lines 131-144). -/
def flowService.getOneOrThrow (st : ServiceState) (projectId id : Nat) : Except ApError Flow :=
  match flowService.getOne st projectId id none false with
  | none => Except.error (ApError.flowNotFound id)
  | some flow => Except.ok flow

/-- The optional folderId condition of the list query: IsNull or an exact value. -/
inductive FolderCondition
  | isNull
  | equalsValue (s : String)
  deriving DecidableEq, Repr

/-- The where-clause built by flowService.list. -/
structure QueryWhere where
  projectId : Nat
  folderId : Option FolderCondition
  deriving DecidableEq, Repr

/-- Whether a flow row satisfies the where-clause. -/
def QueryWhere.matchesRow (w : QueryWhere) (f : FlowRecord) : Bool :=
  f.projectId == w.projectId &&
    (match w.folderId with
     | none => true
     | some FolderCondition.isNull => f.folderId == none
     | some (FolderCondition.equalsValue s) => f.folderId == some s)

/-- Modelled from the spec: the paginator returns the rows matching the query,
in store order, up to the page limit. -/
def paginate (rows : List FlowRecord) (limit : Nat) : List FlowRecord :=
  rows.take limit

/-- The per-row enrichment performed by flowService.list: attach the latest
version and the instance status, defaulting to UNPUBLISHED. -/
def flowService.composeListFlow (st : ServiceState) (projectId : Nat) (flow : FlowRecord) : Flow :=
  let inst := flowInstanceService.get st projectId flow.id
  let status := match inst with
    | some i => i.status
    | none => FlowInstanceStatus.UNPUBLISHED
  { id := flow.id, projectId := flow.projectId, folderId := flow.folderId
    version := flowVersionService.getFlowVersion st projectId flow.id none false
    status := some status }

/-- flowService.list (src/unnamed/part_000, lines 145-184). -/
def flowService.list (st : ServiceState) (projectId : Nat) (limit : Nat)
    (folderId : Option String) : List Flow :=
  let queryWhere : QueryWhere :=
    { projectId := projectId
      folderId := match folderId with
        | none => none
        | some fid =>
          some (if fid == "NULL" then FolderCondition.isNull else FolderCondition.equalsValue fid) }
  let pageData := paginate (st.flows.filter (fun f => queryWhere.matchesRow f)) limit
  pageData.map (fun flow => flowService.composeListFlow st projectId flow)

/-- flowService.update (src/unnamed/part_000, lines 202-235). `lockAvailable`
models whether acquireLock succeeds within its 5000 time unit timeout. Returns
the event trace, the resulting store state, and the outcome. The "flow not
found" error is raised before the try/finally region, mirroring the source. -/
def flowService.update (st : ServiceState) (lockAvailable : Bool) (projectId flowId : Nat)
    (request : FlowOperationRequest) :
    List Event × ServiceState × Except ApError (Option Flow) :=
  let acquireTrace : List Event := [Event.acquireLockEv flowId 5000]
  if lockAvailable = false then
    (acquireTrace, st, Except.error (ApError.lockTimeout flowId))
  else
    let readTrace := acquireTrace ++ [Event.readFlowEv projectId flowId]
    match flowRepo.findOneBy st projectId flowId with
    | none =>
      (readTrace, st, Except.error (ApError.flowNotFound flowId))
    | some flow =>
      let tryResult : List Event × ServiceState × Except ApError Unit :=
        match request with
        | FlowOperationRequest.changeFolder newFolderId =>
          ([Event.updateFolderEv flowId],
           flowRepo.updateRow st flow.id { flow with folderId := newFolderId },
           Except.ok ())
        | FlowOperationRequest.versionOperation op =>
          match flowVersionService.getFlowVersion st projectId flowId none false with
          | none =>
            ([Event.readVersionEv flowId], st, Except.error (ApError.nilVersionAccess flowId))
          | some lastVersion0 =>
            let forked : ServiceState × FlowVersion × List Event :=
              if lastVersion0.state == FlowVersionState.LOCKED then
                let created := flowVersionService.createVersion st flowId lastVersion0.content
                (created.1, created.2, [Event.createVersionEv flowId])
              else
                (st, lastVersion0, [])
            ([Event.readVersionEv flowId] ++ forked.2.2 ++ [Event.applyOperationEv forked.2.1.id],
             flowVersionService.applyOperation forked.1 forked.2.1 op,
             Except.ok ())
      let finalTrace := readTrace ++ tryResult.1 ++ [Event.releaseLockEv flowId]
      match tryResult.2.2 with
      | Except.error e => (finalTrace, tryResult.2.1, Except.error e)
      | Except.ok _ =>
        (finalTrace, tryResult.2.1,
         Except.ok (flowService.getOne (tryResult.2.1) projectId flowId none false))

/-- flowService.delete (src/unnamed/part_000, lines 236-239): instance cleanup
first, then delete the flow row. -/
def flowService.delete (st : ServiceState) (projectId flowId : Nat) : ServiceState :=
  let st1 := flowInstanceService.onFlowDelete st projectId flowId
  flowRepo.deleteFlow st1 projectId flowId

/-- flowService.count (src/unnamed/part_000, lines 240-255). -/
def flowService.count (st : ServiceState) (projectId : Nat) (folderId : Option String) : Nat :=
  match folderId with
  | none => (st.flows.filter (fun f => f.projectId == projectId)).length
  | some fid =>
    if fid != "NULL" then
      (st.flows.filter (fun f => f.folderId == some fid && f.projectId == projectId)).length
    else
      (st.flows.filter (fun f => f.folderId == none && f.projectId == projectId)).length

/-- Store well-formedness: every stored version id is below the fresh-id counter. -/
def VersionIdsFresh (st : ServiceState) : Prop :=
  ∀ v ∈ st.versions, v.id < st.nextVersionId

/-- An empty store, used as a concrete input. -/
def emptyState : ServiceState :=
  { flows := [], versions := [], instances := [], nextFlowId := 0, nextVersionId := 0 }

/-- A sample trigger for concrete inputs. -/
def sampleTrigger : Trigger :=
  { displayName := "Select Trigger", name := "trigger", type := TriggerType.EMPTY, valid := false }

/-- Sample version content for concrete inputs. -/
def sampleContent : FlowVersionContent :=
  { displayName := "flow A", valid := false, trigger := sampleTrigger }

/-- A sample DRAFT version of flow 1, for concrete inputs. -/
def sampleVersion : FlowVersion :=
  { id := 0, flowId := 1, content := sampleContent, state := FlowVersionState.DRAFT }

/-- A sample flow row in project 7, for concrete inputs. -/
def sampleFlowRecord : FlowRecord := { id := 1, projectId := 7, folderId := none }

/-- A sample store with one flow, one DRAFT version and no instance. -/
def sampleState : ServiceState :=
  { flows := [sampleFlowRecord], versions := [sampleVersion], instances := []
    nextFlowId := 2, nextVersionId := 1 }

/-- A sample store whose single version is LOCKED. -/
def lockedState : ServiceState :=
  { flows := [sampleFlowRecord]
    versions := [{ sampleVersion with state := FlowVersionState.LOCKED }]
    instances := [], nextFlowId := 2, nextVersionId := 1 }

/-- C1: the claim fails on the code: on the path where the flow record is
absent, update raises the not-found error before entering the guarded region,
so the acquired lock is never released — the trace ends without a release
event even though the lock was acquired. -/
theorem update_notFound_leaks_lock :
    (flowService.update emptyState true 7 1 (FlowOperationRequest.changeFolder none)).2.2
      = Except.error (ApError.flowNotFound 1)
    ∧ (flowService.update emptyState true 7 1 (FlowOperationRequest.changeFolder none)).2.1
      = emptyState
    ∧ Event.acquireLockEv 1 5000
        ∈ (flowService.update emptyState true 7 1 (FlowOperationRequest.changeFolder none)).1
    ∧ Event.releaseLockEv 1
        ∉ (flowService.update emptyState true 7 1 (FlowOperationRequest.changeFolder none)).1 :=
  ⟨rfl, rfl, by decide, by decide⟩

/-- C3: every update call first attempts the per-flowId lock with timeout
exactly 5000, before any read or mutation (the acquire event heads every
trace), and when acquisition fails the call returns the lock-timeout error
with the store untouched and no further effect. -/
theorem update_lock_first_and_timeout_fails (st : ServiceState) (lockAvailable : Bool)
    (projectId flowId : Nat) (request : FlowOperationRequest) :
    (flowService.update st lockAvailable projectId flowId request).1.head?
      = some (Event.acquireLockEv flowId 5000)
    ∧ flowService.update st false projectId flowId request
      = ([Event.acquireLockEv flowId 5000], st, Except.error (ApError.lockTimeout flowId)) := by
  constructor
  · unfold flowService.update
    cases lockAvailable
    · rfl
    · simp only [Bool.true_eq_false, if_false]
      cases hfind : flowRepo.findOneBy st projectId flowId
      · rfl
      · cases request
        · rfl
        · cases hver : flowVersionService.getFlowVersion st projectId flowId none false
          · rfl
          · rfl
  · rfl

/-- C4: delete runs the instance cleanup strictly before removing the flow
row: the cleanup leaves the flow table untouched (so it observes the flow as
still existing), delete is exactly the row deletion applied to the cleaned-up
state, and a subsequent getOne for that id returns none. -/
theorem delete_cleanup_before_removal (st : ServiceState) (projectId flowId : Nat) :
    (flowInstanceService.onFlowDelete st projectId flowId).flows = st.flows
    ∧ flowService.delete st projectId flowId
        = flowRepo.deleteFlow (flowInstanceService.onFlowDelete st projectId flowId) projectId flowId
    ∧ flowService.getOne (flowService.delete st projectId flowId) projectId flowId none false
        = none := by
  refine ⟨rfl, rfl, ?_⟩
  have h : flowRepo.findOneBy (flowService.delete st projectId flowId) projectId flowId = none := by
    unfold flowRepo.findOneBy flowService.delete flowRepo.deleteFlow flowInstanceService.onFlowDelete
    simp only [List.find?_eq_none, List.mem_filter]
    intro f hf
    have := hf.2
    simp only [Bool.not_eq_eq_eq_not, Bool.not_true] at this
    simp [this]
  unfold flowService.getOne
  rw [h]

/-- C6: getOne returns none rather than failing when the flow row is absent,
and getOneOrThrow yields the not-found error carrying exactly that id when and
only when the row is absent; otherwise it returns the composed Flow that
getOne produces. -/
theorem getOne_none_getOneOrThrow_iff (st : ServiceState) (projectId id : Nat) :
    (flowRepo.findOneBy st projectId id = none →
       flowService.getOne st projectId id none false = none
       ∧ flowService.getOneOrThrow st projectId id = Except.error (ApError.flowNotFound id))
    ∧ (flowService.getOneOrThrow st projectId id = Except.error (ApError.flowNotFound id) →
       flowRepo.findOneBy st projectId id = none)
    ∧ (∀ fl, flowService.getOne st projectId id none false = some fl →
       flowService.getOneOrThrow st projectId id = Except.ok fl) := by
  unfold flowService.getOneOrThrow flowService.getOne
  cases hfind : flowRepo.findOneBy st projectId id
  · simp
  · simp

/-- Concrete run of the C6 theorem: on the empty store the absent flow 1 of
project 0 yields none from getOne and the not-found error from getOneOrThrow,
and on the sample store getOneOrThrow returns the composed flow. -/
theorem getOne_none_getOneOrThrow_iff_witness :
    (flowService.getOne emptyState 0 1 none false = none
      ∧ flowService.getOneOrThrow emptyState 0 1 = Except.error (ApError.flowNotFound 1))
    ∧ flowService.getOneOrThrow sampleState 7 1
        = Except.ok
            { id := 1, projectId := 7, folderId := none, version := some sampleVersion
              status := some FlowInstanceStatus.UNPUBLISHED } :=
  ⟨(getOne_none_getOneOrThrow_iff emptyState 0 1).1 rfl,
   (getOne_none_getOneOrThrow_iff sampleState 7 1).2.2 _ rfl⟩

/-- C5: with folderId set to the NULL sentinel, list returns exactly the
project's flows whose folderId is unset (given a page limit covering the
store), each composed by the list enrichment, and count returns exactly the
number of such flows. -/
theorem list_count_null_sentinel (st : ServiceState) (projectId limit : Nat)
    (h : st.flows.length ≤ limit) :
    flowService.list st projectId limit (some "NULL")
      = (st.flows.filter (fun f => f.projectId == projectId && f.folderId == none)).map
          (flowService.composeListFlow st projectId)
    ∧ flowService.count st projectId (some "NULL")
      = (st.flows.filter (fun f => f.projectId == projectId && f.folderId == none)).length := by
  constructor
  · unfold flowService.list paginate
    simp only [beq_self_eq_true, if_true]
    rw [List.take_of_length_le (le_trans (List.length_filter_le _ _) h)]
    rfl
  · unfold flowService.count
    simp only [bne_self_eq_false, Bool.false_eq_true, if_false]
    exact congrArg List.length (List.filter_congr (fun f _ => by rw [Bool.and_comm]))

/-- Concrete run of the C5 theorem on the sample store. -/
theorem list_count_null_sentinel_witness :
    sampleState.flows.length ≤ 5
    ∧ (flowService.list sampleState 7 5 (some "NULL")
        = (sampleState.flows.filter (fun f => f.projectId == 7 && f.folderId == none)).map
            (flowService.composeListFlow sampleState 7)
      ∧ flowService.count sampleState 7 (some "NULL")
        = (sampleState.flows.filter (fun f => f.projectId == 7 && f.folderId == none)).length) :=
  ⟨by decide, list_count_null_sentinel sampleState 7 5 (by decide)⟩

/-- C9: every Flow composed by getOne or list carries the status of the flow's
instance record, and the UNPUBLISHED default when no instance record exists. -/
theorem read_status_defaults_unpublished (st : ServiceState)
    (projectId id limit : Nat) (versionId : Option Nat) (includeArtifacts : Bool)
    (folderId : Option String) :
    (∀ fl, flowService.getOne st projectId id versionId includeArtifacts = some fl →
       fl.status = some (match flowInstanceService.get st projectId id with
         | some i => i.status
         | none => FlowInstanceStatus.UNPUBLISHED))
    ∧ ∀ fl ∈ flowService.list st projectId limit folderId,
       fl.status = some (match flowInstanceService.get st projectId fl.id with
         | some i => i.status
         | none => FlowInstanceStatus.UNPUBLISHED) := by
  constructor
  · intro fl hfl
    unfold flowService.getOne at hfl
    cases hfind : flowRepo.findOneBy st projectId id with
    | none => rw [hfind] at hfl; exact absurd hfl (by simp)
    | some flow =>
      rw [hfind] at hfl
      have hid : flow.id = id := by
        unfold flowRepo.findOneBy at hfind
        have hp := List.find?_some hfind
        simp only [Bool.and_eq_true, beq_iff_eq] at hp
        exact hp.2
      simp only [Option.some.injEq] at hfl
      subst hfl
      simp only [hid]
  · intro fl hfl
    unfold flowService.list at hfl
    rw [List.mem_map] at hfl
    obtain ⟨f, _, hcomp⟩ := hfl
    subst hcomp
    rfl

/-- Concrete run of the C9 theorem: the sample store has no instance record
for flow 1, and the composed read carries the UNPUBLISHED default. -/
theorem read_status_defaults_unpublished_witness :
    ({ id := 1, projectId := 7, folderId := none, version := some sampleVersion
       status := some FlowInstanceStatus.UNPUBLISHED } : Flow).status
      = some (match flowInstanceService.get sampleState 7 1 with
         | some i => i.status
         | none => FlowInstanceStatus.UNPUBLISHED) :=
  (read_status_defaults_unpublished sampleState 7 1 0 none false none).1 _ rfl

/-- C10: the literal string NULL given as folderId is always interpreted as the
no-folder sentinel: every flow returned by list under any specific-folder
filter has a folderId different from the stored literal NULL string, and
removing the rows whose stored folderId is that literal string never changes
any specific-folder count. -/
theorem null_literal_never_selected (st : ServiceState) (projectId limit : Nat) (q : String) :
    (∀ fl ∈ flowService.list st projectId limit (some q), fl.folderId ≠ some "NULL")
    ∧ flowService.count
        { st with flows := st.flows.filter (fun f => !(f.folderId == some "NULL")) }
        projectId (some q)
      = flowService.count st projectId (some q) := by
  constructor
  · intro fl hfl
    unfold flowService.list at hfl
    rw [List.mem_map] at hfl
    obtain ⟨f, hfmem, hcomp⟩ := hfl
    subst hcomp
    unfold paginate at hfmem
    have hrow := (List.mem_filter.mp (List.mem_of_mem_take hfmem)).2
    show f.folderId ≠ some "NULL"
    by_cases hq : q = "NULL"
    · subst hq
      simp only [QueryWhere.matchesRow, beq_self_eq_true, if_true, Bool.and_eq_true,
        beq_iff_eq] at hrow
      rw [hrow.2]
      simp
    · simp only [QueryWhere.matchesRow, beq_iff_eq, hq, if_false, Bool.and_eq_true] at hrow
      rw [hrow.2]
      simp [hq]
  · unfold flowService.count
    by_cases hq : q = "NULL"
    · subst hq
      simp only [bne_self_eq_false, Bool.false_eq_true, if_false]
      rw [List.filter_filter]
      refine congrArg List.length (List.filter_congr (fun f _ => ?_))
      cases hfol : (f.folderId == none)
      · simp [hfol]
      · have hnone : f.folderId = none := by simpa using hfol
        simp [hfol, hnone]
    · have hbne : (q != "NULL") = true := by simpa [bne] using hq
      simp only [hbne, if_true]
      rw [List.filter_filter]
      refine congrArg List.length (List.filter_congr (fun f _ => ?_))
      cases hfol : (f.folderId == some q)
      · simp [hfol]
      · have hsome : f.folderId = some q := by simpa using hfol
        simp [hfol, hsome, hq]

/-- A store with one folder-a flow and one flow whose stored folderId is the
literal NULL string, for concrete inputs. -/
def nullNamedState : ServiceState :=
  { flows := [{ id := 1, projectId := 7, folderId := some "a" },
              { id := 2, projectId := 7, folderId := some "NULL" }]
    versions := [], instances := [], nextFlowId := 3, nextVersionId := 0 }

/-- Concrete run of the C10 theorem: the flow listed under the specific-folder
filter "a" does not carry the literal NULL folderId, and dropping the row
whose stored folderId is the literal NULL string leaves the count under the
"a" filter unchanged. -/
theorem null_literal_never_selected_witness :
    (flowService.composeListFlow nullNamedState 7
        { id := 1, projectId := 7, folderId := some "a" }).folderId ≠ some "NULL"
    ∧ flowService.count
        { nullNamedState with
          flows := nullNamedState.flows.filter (fun f => !(f.folderId == some "NULL")) }
        7 (some "a")
      = flowService.count nullNamedState 7 (some "a") :=
  ⟨(null_literal_never_selected nullNamedState 7 5 "a").1 _ (by decide),
   (null_literal_never_selected nullNamedState 7 5 "a").2⟩

/-- C7: immediately after create the flow has at least one version; the
subsequent latest-version read returns a version with an EMPTY, invalid
trigger, itself marked invalid and still DRAFT, and the Flow returned by
create is composed with exactly that version. -/
theorem create_initial_version (st : ServiceState) (projectId : Nat)
    (request : CreateFlowRequest) :
    ∃ v : FlowVersion,
      flowVersionService.getFlowVersion (flowService.create st projectId request).1 projectId
          (flowService.create st projectId request).2.id none false = some v
      ∧ (flowService.create st projectId request).2.version = some v
      ∧ v.content.trigger.type = TriggerType.EMPTY
      ∧ v.content.trigger.valid = false
      ∧ v.content.valid = false
      ∧ v.state = FlowVersionState.DRAFT
      ∧ 1 ≤ ((flowService.create st projectId request).1.versions.filter
              (fun w => w.flowId == (flowService.create st projectId request).2.id)).length := by
  have hform : (flowService.create st projectId request).1.versions
      = st.versions
        ++ [{ id := st.nextVersionId, flowId := st.nextFlowId
              content :=
                { displayName := request.displayName, valid := false
                  trigger :=
                    { displayName := "Select Trigger", name := "trigger"
                      type := TriggerType.EMPTY, valid := false } }
              state := FlowVersionState.DRAFT }] := rfl
  have hkey : flowVersionService.getFlowVersion (flowService.create st projectId request).1
      projectId (flowService.create st projectId request).2.id none false
      = some { id := st.nextVersionId, flowId := st.nextFlowId
               content :=
                 { displayName := request.displayName, valid := false
                   trigger :=
                     { displayName := "Select Trigger", name := "trigger"
                       type := TriggerType.EMPTY, valid := false } }
               state := FlowVersionState.DRAFT } := by
    have hid : (flowService.create st projectId request).2.id = st.nextFlowId := rfl
    unfold flowVersionService.getFlowVersion
    rw [hid, hform, List.filter_append]
    simp
  have hid : (flowService.create st projectId request).2.id = st.nextFlowId := rfl
  refine ⟨_, hkey, hkey, rfl, rfl, rfl, rfl, ?_⟩
  rw [hid, hform, List.filter_append]
  simp

/-- C8: a CHANGE_FOLDER update rewrites only the folderId of the flow row: the
row keeps its id and projectId, every other row is untouched, and the version
and instance tables (and the version id counter) are unchanged. -/
theorem update_change_folder_frame (st : ServiceState) (projectId flowId : Nat)
    (newFolderId : Option String) (flow : FlowRecord)
    (hfind : flowRepo.findOneBy st projectId flowId = some flow) :
    (flowService.update st true projectId flowId
        (FlowOperationRequest.changeFolder newFolderId)).2.1.versions = st.versions
    ∧ (flowService.update st true projectId flowId
        (FlowOperationRequest.changeFolder newFolderId)).2.1.instances = st.instances
    ∧ (flowService.update st true projectId flowId
        (FlowOperationRequest.changeFolder newFolderId)).2.1.nextVersionId = st.nextVersionId
    ∧ (flowService.update st true projectId flowId
        (FlowOperationRequest.changeFolder newFolderId)).2.1.flows.length = st.flows.length
    ∧ (∀ f ∈ st.flows, f.id ≠ flow.id →
        f ∈ (flowService.update st true projectId flowId
              (FlowOperationRequest.changeFolder newFolderId)).2.1.flows)
    ∧ ({ id := flow.id, projectId := flow.projectId, folderId := newFolderId } : FlowRecord)
        ∈ (flowService.update st true projectId flowId
            (FlowOperationRequest.changeFolder newFolderId)).2.1.flows := by
  have hstate : (flowService.update st true projectId flowId
      (FlowOperationRequest.changeFolder newFolderId)).2.1
      = flowRepo.updateRow st flow.id { flow with folderId := newFolderId } := by
    unfold flowService.update
    simp only [Bool.true_eq_false, if_false, hfind]
  refine ⟨by rw [hstate]; rfl, by rw [hstate]; rfl, by rw [hstate]; rfl, ?_, ?_, ?_⟩
  · rw [hstate]
    exact List.length_map _ _
  · intro f hf hne
    rw [hstate]
    have himg : (fun g : FlowRecord => if g.id == flow.id
        then ({ flow with folderId := newFolderId } : FlowRecord) else g) f = f := by
      simp [hne]
    simp only [flowRepo.updateRow]
    exact List.mem_map.mpr ⟨f, hf, himg⟩
  · rw [hstate]
    have hmem : flow ∈ st.flows := by
      unfold flowRepo.findOneBy at hfind
      exact List.mem_of_find?_eq_some hfind
    have himg : (fun g : FlowRecord => if g.id == flow.id
        then ({ flow with folderId := newFolderId } : FlowRecord) else g) flow
        = { id := flow.id, projectId := flow.projectId, folderId := newFolderId } := by
      simp
    simp only [flowRepo.updateRow]
    exact List.mem_map.mpr ⟨flow, hmem, himg⟩

/-- Concrete run of the C8 theorem on the sample store. -/
theorem update_change_folder_frame_witness :
    (flowService.update sampleState true 7 1
        (FlowOperationRequest.changeFolder (some "B"))).2.1.versions = sampleState.versions
    ∧ (flowService.update sampleState true 7 1
        (FlowOperationRequest.changeFolder (some "B"))).2.1.instances = sampleState.instances
    ∧ (flowService.update sampleState true 7 1
        (FlowOperationRequest.changeFolder (some "B"))).2.1.nextVersionId
        = sampleState.nextVersionId
    ∧ (flowService.update sampleState true 7 1
        (FlowOperationRequest.changeFolder (some "B"))).2.1.flows.length
        = sampleState.flows.length
    ∧ ({ id := 1, projectId := 7, folderId := some "B" } : FlowRecord)
        ∈ (flowService.update sampleState true 7 1
            (FlowOperationRequest.changeFolder (some "B"))).2.1.flows :=
  ⟨(update_change_folder_frame sampleState 7 1 (some "B") sampleFlowRecord rfl).1,
   (update_change_folder_frame sampleState 7 1 (some "B") sampleFlowRecord rfl).2.1,
   (update_change_folder_frame sampleState 7 1 (some "B") sampleFlowRecord rfl).2.2.1,
   (update_change_folder_frame sampleState 7 1 (some "B") sampleFlowRecord rfl).2.2.2.1,
   (update_change_folder_frame sampleState 7 1 (some "B") sampleFlowRecord rfl).2.2.2.2.2⟩

/-- C2: a non-folder update of a flow whose current version is LOCKED appends
one fresh DRAFT version carrying the operation applied to the locked one's
content, with an identity distinct from the locked version, while every
pre-existing version (the locked one included) is kept byte-for-byte; when the
current version is not LOCKED the operation is applied to that same version in
place and no version is created. -/
theorem update_copy_on_write (st : ServiceState) (projectId flowId : Nat)
    (op : FlowVersionContent → FlowVersionContent) (flow : FlowRecord) (v : FlowVersion)
    (hwf : VersionIdsFresh st)
    (hfind : flowRepo.findOneBy st projectId flowId = some flow)
    (hver : flowVersionService.getFlowVersion st projectId flowId none false = some v) :
    (v.state = FlowVersionState.LOCKED →
       (flowService.update st true projectId flowId
           (FlowOperationRequest.versionOperation op)).2.1.versions
         = st.versions
           ++ [{ id := st.nextVersionId, flowId := flowId, content := op v.content
                 state := FlowVersionState.DRAFT }]
       ∧ v.id ≠ st.nextVersionId)
    ∧ (v.state ≠ FlowVersionState.LOCKED →
       (flowService.update st true projectId flowId
           (FlowOperationRequest.versionOperation op)).2.1.versions.length
         = st.versions.length
       ∧ (∀ w ∈ st.versions, w.id ≠ v.id →
            w ∈ (flowService.update st true projectId flowId
                   (FlowOperationRequest.versionOperation op)).2.1.versions)
       ∧ ({ v with content := op v.content } : FlowVersion)
           ∈ (flowService.update st true projectId flowId
                (FlowOperationRequest.versionOperation op)).2.1.versions) := by
  have hvmem : v ∈ st.versions := by
    unfold flowVersionService.getFlowVersion at hver
    exact (List.mem_filter.mp (List.mem_of_mem_getLast? hver)).1
  constructor
  · intro hlt
    have hne : v.id ≠ st.nextVersionId := Nat.ne_of_lt (hwf v hvmem)
    refine ⟨?_, hne⟩
    have hstate : (flowService.update st true projectId flowId
        (FlowOperationRequest.versionOperation op)).2.1
        = flowVersionService.applyOperation
            (flowVersionService.createVersion st flowId v.content).1
            (flowVersionService.createVersion st flowId v.content).2 op := by
      unfold flowService.update
      simp only [Bool.true_eq_false, if_false, hfind, hver, hlt, beq_self_eq_true, if_true]
    have hexpand : (flowVersionService.applyOperation
        (flowVersionService.createVersion st flowId v.content).1
        (flowVersionService.createVersion st flowId v.content).2 op).versions
        = (st.versions
            ++ [({ id := st.nextVersionId, flowId := flowId, content := v.content
                   state := FlowVersionState.DRAFT } : FlowVersion)]).map
            (fun w : FlowVersion => if w.id == st.nextVersionId
              then { w with content := op w.content } else w) := rfl
    rw [hstate, hexpand, List.map_append]
    congr 1
    · calc st.versions.map (fun w : FlowVersion => if w.id == st.nextVersionId
              then { w with content := op w.content } else w)
          = st.versions.map id :=
            List.map_congr_left (fun w hw => by
              have : (w.id == st.nextVersionId) = false := by
                simp [Nat.ne_of_lt (hwf w hw)]
              simp [this])
        _ = st.versions := List.map_id _
    · simp
  · intro hnl
    have hb : (v.state == FlowVersionState.LOCKED) = false := by
      simp [hnl]
    have hstate : (flowService.update st true projectId flowId
        (FlowOperationRequest.versionOperation op)).2.1
        = flowVersionService.applyOperation st v op := by
      unfold flowService.update
      simp only [Bool.true_eq_false, if_false, hfind, hver, hb, Bool.false_eq_true]
    refine ⟨?_, ?_, ?_⟩
    · rw [hstate]
      exact List.length_map _ _
    · intro w hw hne
      rw [hstate]
      have himg : (fun u : FlowVersion => if u.id == v.id
          then { u with content := op u.content } else u) w = w := by
        simp [hne]
      simp only [flowVersionService.applyOperation]
      exact List.mem_map.mpr ⟨w, hw, himg⟩
    · rw [hstate]
      have himg : (fun u : FlowVersion => if u.id == v.id
          then { u with content := op u.content } else u) v
          = { v with content := op v.content } := by
        simp
      simp only [flowVersionService.applyOperation]
      exact List.mem_map.mpr ⟨v, hvmem, himg⟩

/-- Concrete run of the C2 theorem, LOCKED branch, on the sample store whose
single version is LOCKED: the update appends one fresh DRAFT version with the
edited content, distinct in identity from the locked version. -/
theorem update_copy_on_write_witness :
    (flowService.update lockedState true 7 1
        (FlowOperationRequest.versionOperation (fun c => { c with valid := true }))).2.1.versions
      = lockedState.versions
        ++ [{ id := 1, flowId := 1
              content := { sampleContent with valid := true }
              state := FlowVersionState.DRAFT }]
    ∧ ({ sampleVersion with state := FlowVersionState.LOCKED } : FlowVersion).id ≠ 1 :=
  (update_copy_on_write lockedState 7 1 (fun c => { c with valid := true })
      sampleFlowRecord { sampleVersion with state := FlowVersionState.LOCKED }
      (by unfold VersionIdsFresh; decide) rfl rfl).1 rfl

end GowSpec
